import Mathlib

/-!
Verification development for the equal-risk-contribution (risk parity) solver stack of
OptimalPortfolios (optimalportfolios/optimization/solvers/risk_parity.py).

Embedding conventions:
* pandas/numpy float values are rationals; a possibly-NaN float is an `Option ℚ`
  with `none` playing the role of NaN;
* a pandas covariance DataFrame is a square list-of-rows matrix, positionally
  indexed (position k stands for the k-th ticker of the original asset index);
* Python exceptions are the `Except PyError` monad: a raised exception is `.error e`;
* the external scipy routine `scipy.optimize.minimize` is an oracle parameter of type
  `MinimizeCall → Option Vec`; the record `MinimizeCall` captures exactly the arguments
  the source builds for the call, and the oracle's `none` result models the
  `res.x is None` situation the source's fallback branch tests for;
* `numpy.sqrt` is likewise an oracle parameter `ℚ → ℚ` wherever a square root is taken.

Utility modules referenced by risk_parity.py but not among the sources
(optimalportfolios/utils/portfolio_funcs.py, utils/filter_nans.py, utils/covar_matrix.py,
optimization/constraints.py) are modelled from the specification; each such definition
carries a doc comment starting with "Modelled from the spec:".
-/

/-- Python exceptions that the embedded code can raise. -/
inductive PyError where
  | zeroDivisionError
  | attributeError
  | typeError
  deriving DecidableEq, Repr

/-- A numpy 1-d float array / pandas Series without NaNs. -/
abbrev Vec := List ℚ

/-- A pandas DataFrame holding a (possibly NaN-afflicted) square covariance matrix:
row i, column j is `none` when the stored float is NaN. -/
abbrev NanMat := List (List (Option ℚ))

/-- A NaN-free covariance matrix, as handed to the numerical solver. -/
abbrev QMat := List (List ℚ)

/-- Row i of a NaN-afflicted matrix (empty when out of range). -/
def matRow (c : NanMat) (i : Nat) : List (Option ℚ) := c.getD i []

/-- Entry (i, j) of a NaN-free matrix, 0 when out of range. -/
def matEntry (m : QMat) (i j : Nat) : ℚ := (m.getD i []).getD j 0

/-- Dot product of two equally long vectors. -/
def dotQ (a b : Vec) : ℚ := (List.zipWith (fun x y => x * y) a b).sum

/-- Matrix-vector product. -/
def matVecMul (m : QMat) (v : Vec) : Vec := m.map (fun row => dotQ row v)

/-- Modelled from the spec: `calculate_portfolio_var`
(optimalportfolios/utils/portfolio_funcs.py is not among the sources);
spec 4.1: portfolio_variance(w, S) = w^T S w. -/
def calculate_portfolio_var (w : Vec) (covar : QMat) : ℚ := dotQ w (matVecMul covar w)

/-- Modelled from the spec: `calculate_risk_contribution`
(optimalportfolios/utils/portfolio_funcs.py is not among the sources);
spec 4.1: risk_contribution(w, S) = w ⊙ (S w) / sqrt(w^T S w), returning a NaN-safe
zero vector when the portfolio variance is zero. `sqrtFn` is the numpy sqrt oracle. -/
def calculate_risk_contribution (sqrtFn : ℚ → ℚ) (x : Vec) (covar : QMat) : Vec :=
  let v := calculate_portfolio_var x covar
  if v = 0 then List.replicate x.length 0
  else List.zipWith (fun wi mi => wi * mi / sqrtFn v) x (matVecMul covar x)

/-- Whether an asset row contains a NaN entry. -/
def rowHasNaN (row : List (Option ℚ)) : Bool := row.any (fun e => e.isNone)

/-- Variance (diagonal entry) of asset i, NaN-aware. -/
def assetVariance (c : NanMat) (i : Nat) : Option ℚ := (matRow c i).getD i none

/-- Validity test of one asset position: its covariance row holds no NaN and its
variance is strictly positive. -/
def isValidAsset (c : NanMat) (i : Nat) : Bool :=
  !(rowHasNaN (matRow c i)) &&
    (match assetVariance c i with
     | some v => decide (0 < v)
     | none => false)

/-- Modelled from the spec: the valid-asset set computed by
`filter_covar_and_vectors_for_nans` (optimalportfolios/utils/filter_nans.py is not among
the sources); spec 4.3: the valid set is exactly the assets with no NaN entries and
strictly positive variance, order preserved from the original index. -/
def validIndices (c : NanMat) : List Nat :=
  (List.range c.length).filter (fun i => isValidAsset c i)

/-- Modelled from the spec: the reduced covariance matrix returned by
`filter_covar_and_vectors_for_nans`: the input matrix restricted to the valid assets
(whose retained entries are NaN-free by construction). -/
def cleanCovar (c : NanMat) : QMat :=
  (validIndices c).map (fun i => (validIndices c).map (fun j => ((matRow c i).getD j none).getD 0))

/-- Modelled from the spec: `squeeze_covariance_matrix`
(optimalportfolios/utils/covar_matrix.py is not among the sources); spec 4.2 / glossary:
shrinkage blends the estimated matrix toward its diagonal target by the squeeze factor q,
leaving the diagonal unchanged and scaling every off-diagonal entry by (1 - q). -/
def squeeze_covariance_matrix (m : QMat) (q : ℚ) : QMat :=
  (List.range m.length).map (fun i =>
    (List.range (m.getD i []).length).map (fun j =>
      if i = j then matEntry m i j else (1 - q) * matEntry m i j))

/-- The wrapper's own squeeze step (risk_parity.py lines 111-112):
`if squeeze_factor is not None and squeeze_factor > 0.0: clean_covar = squeeze_covariance_matrix(...)`. -/
def apply_wrapper_squeeze (m : QMat) (squeeze_factor : Option ℚ) : QMat :=
  match squeeze_factor with
  | some q => if 0 < q then squeeze_covariance_matrix m q else m
  | none => m

/-- The `Constraints` bundle (optimalportfolios/optimization/constraints.py is not among
the sources; fields modelled from the spec, 3. DATA MODEL): only the fields
risk_parity.py touches are carried. `none` stands for a Python None. -/
structure Constraints where
  is_long_only : Bool
  min_weights : Option (List (Option ℚ))
  max_weights : Option (List (Option ℚ))
  weights_0 : Option Vec
  deriving DecidableEq, Repr

/-- Modelled from the spec: `Constraints.update_with_valid_tickers` (spec 4.4): returns a
new Constraints restricted to the valid positions, with `weights_0` reindexed and filled
with 0 for assets it lacks; group-sleeve bounds (rescaled by total_to_good) are not
modelled because risk_parity.py never reads them back. -/
def Constraints.update_with_valid_tickers (c : Constraints) (validIdx : List Nat)
    (total_to_good : ℚ) (weights_0 : Option Vec) : Constraints :=
  { is_long_only := c.is_long_only
    min_weights := c.min_weights.map (fun v => validIdx.map (fun i => v.getD i none))
    max_weights := c.max_weights.map (fun v => validIdx.map (fun i => v.getD i none))
    weights_0 := weights_0.map (fun w => validIdx.map (fun i => w.getD i 0)) }

/-- Modelled from the spec: the materialized scipy constraint bundle produced by
`Constraints.set_scipy_constraints` (optimalportfolios/optimization/constraints.py is not
among the sources); modelled as a record of the declarative constraint bundle and the
covariance matrix it was materialized against, which is all risk_parity.py observes. -/
structure ScipyConstraints where
  source : Constraints
  covar : QMat
  deriving DecidableEq, Repr

def Constraints.set_scipy_constraints (c : Constraints) (covar : QMat) : ScipyConstraints :=
  ⟨c, covar⟩

/-- The argument record of the scipy.optimize.minimize call built by
`opt_equal_risk_contribution` (risk_parity.py lines 155-156): objective
risk_budget_objective with args = [covar, risk_budget], initial point x0, method SLSQP,
the materialized constraints, and options ftol = 1e-18, maxiter = 200. -/
structure MinimizeCall where
  x0 : Vec
  argsCovar : QMat
  argsBudget : Option Vec
  method : String
  scipyCons : ScipyConstraints
  ftol : ℚ
  maxiter : Nat
  deriving DecidableEq, Repr

/-- The minimize call `opt_equal_risk_contribution` issues (risk_parity.py lines 150-156):
x0 = np.ones(n)/n, method = SLSQP, constraints = constraints.set_scipy_constraints(covar),
ftol = 1e-18, maxiter = 200. -/
def optCall (covar : QMat) (constraints : Constraints) (risk_budget : Option Vec) :
    MinimizeCall :=
  { x0 := List.replicate covar.length (1 / (covar.length : ℚ))
    argsCovar := covar
    argsBudget := risk_budget
    method := "SLSQP"
    scipyCons := constraints.set_scipy_constraints covar
    ftol := 1 / 1000000000000000000
    maxiter := 200 }

/-- `opt_equal_risk_contribution` (risk_parity.py lines 143-170). The scipy solve is the
oracle `minimize`; `none` models `res.x is None`, in which case the source prints
(only logs) and substitutes `constraints.weights_0` when present, else `np.zeros(n)`.
The function is total: it never raises. -/
def opt_equal_risk_contribution (minimize : MinimizeCall → Option Vec) (covar : QMat)
    (constraints : Constraints) (risk_budget : Option Vec) : Vec :=
  match minimize (optCall covar constraints risk_budget) with
  | some x => x
  | none =>
    match constraints.weights_0 with
    | some w => w
    | none => List.replicate covar.length 0

/-- `risk_budget_objective` (risk_parity.py lines 173-182), with pars = [covar, budget]
unpacked into named arguments and numpy sqrt as the oracle `sqrtFn`. A NaN budget entry
(`none`) makes the target equal the asset's own risk contribution
(`np.where(np.isnan(budget), asset_rc, np.multiply(sig_p, budget))`); with no budget the
target is the equal split sig_p / n. The value is nansum(square(asset_rc - risk_target)). -/
def risk_budget_objective (sqrtFn : ℚ → ℚ) (x : Vec) (covar : QMat)
    (budget : Option (List (Option ℚ))) : ℚ :=
  let asset_rc := calculate_risk_contribution sqrtFn x covar
  let sig_p := sqrtFn (calculate_portfolio_var x covar)
  let risk_target : Vec :=
    match budget with
    | some b =>
      List.zipWith (fun rc bi =>
        match bi with
        | none => rc
        | some v => sig_p * v) asset_rc b
    | none => asset_rc.map (fun _ => sig_p * (1 / (asset_rc.length : ℚ)))
  (List.zipWith (fun rc t => (rc - t) ^ 2) asset_rc risk_target).sum

/-- The risk budget actually passed to the per-date solve
(risk_parity.py lines 114-118): restrict the budget to the valid tickers, fill NaN
entries with 0, and rescale every entry by total_to_good = n_total / n_valid. -/
def wrapper_passed_risk_budget (pd_covar : NanMat) (b : List (Option ℚ)) : Vec :=
  let validIdx := validIndices pd_covar
  let total_to_good : ℚ := (pd_covar.length : ℚ) / (validIdx.length : ℚ)
  validIdx.map (fun i => ((b.getD i none).getD 0) * total_to_good)

/-- The reindexing step of the wrapper (risk_parity.py lines 127-128):
`pd.Series(weights0, index=clean_covar.index).reindex(index=pd_covar.index).fillna(0.0)`.
Position k of the full index receives the solved weight when k is valid
(looked up at k's rank inside validIdx) and 0 otherwise. -/
def reindexFill (n : Nat) (validIdx : List Nat) (w : Vec) : Vec :=
  (List.range n).map (fun k =>
    match validIdx.findIdx? (fun i => i = k) with
    | some r => w.getD r 0
    | none => 0)

/-- `wrapper_equal_risk_contribution` (risk_parity.py lines 95-140). Order of effects as
in the source: NaN filter, squeeze, total_to_good ratio (raising ZeroDivisionError when
no valid asset remains, line 114), risk-budget restriction and rescaling (lines 116-118),
constraint update (line 120), then the solve call whose keyword argument
`risk_budget.to_numpy()` raises AttributeError when risk_budget is still None (line 126),
and finally the reindex back to the full index with zero fill (lines 127-128). -/
def wrapper_equal_risk_contribution (minimize : MinimizeCall → Option Vec)
    (pd_covar : NanMat) (constraints0 : Constraints) (weights_0 : Option Vec)
    (risk_budget : Option (List (Option ℚ))) (squeeze_factor : Option ℚ) :
    Except PyError Vec :=
  let validIdx := validIndices pd_covar
  let clean_covar := apply_wrapper_squeeze (cleanCovar pd_covar) squeeze_factor
  if validIdx.length = 0 then
    .error .zeroDivisionError
  else
    let total_to_good : ℚ := (pd_covar.length : ℚ) / (validIdx.length : ℚ)
    match risk_budget with
    | none => .error .attributeError
    | some b =>
      let rb := wrapper_passed_risk_budget pd_covar b
      let constraints := constraints0.update_with_valid_tickers validIdx total_to_good weights_0
      let weights0 := opt_equal_risk_contribution minimize clean_covar constraints (some rb)
      .ok (reindexFill pd_covar.length validIdx weights0)

/-- The shared rebalancing loop of both rolling drivers (risk_parity.py lines 38-47 and
80-89): iterate the per-date covariances in order, call the wrapper with the carried
warm start, record the weights, and carry them as the warm start of the next date.
A raised exception aborts the loop as in Python. -/
def rolling_erc_go (minimize : MinimizeCall → Option Vec) (constraints0 : Constraints)
    (risk_budget : Option (List (Option ℚ))) (squeeze_factor : Option ℚ) :
    List (Nat × NanMat) → Option Vec → Except PyError (List (Nat × Vec))
  | [], _ => .ok []
  | (d, c) :: rest, w0 =>
    match wrapper_equal_risk_contribution minimize c constraints0 w0 risk_budget squeeze_factor with
    | .error e => .error e
    | .ok w =>
      match rolling_erc_go minimize constraints0 risk_budget squeeze_factor rest (some w) with
      | .error e => .error e
      | .ok ws => .ok ((d, w) :: ws)

/-- `rolling_equal_risk_contribution` (risk_parity.py lines 19-50). The per-date EWMA
covariances (estimate_rolling_ewma_covar, optimalportfolios/utils/covar_matrix.py, not
among the sources) are taken as the input association list `pd_covars`, modelled from the
spec as date-ascending; the loop starts with no warm start (weights_0 = None, line 39). -/
def rolling_equal_risk_contribution (minimize : MinimizeCall → Option Vec)
    (pd_covars : List (Nat × NanMat)) (constraints0 : Constraints)
    (risk_budget : Option (List (Option ℚ))) (squeeze_factor : Option ℚ) :
    Except PyError (List (Nat × Vec)) :=
  rolling_erc_go minimize constraints0 risk_budget squeeze_factor pd_covars none

/-- `rolling_equal_risk_contribution_lasso_covar` (risk_parity.py lines 53-92), on the
path where the per-date covariances are given; its rebalancing loop (lines 80-89) is
textually identical to the EWMA driver's (lines 38-47). -/
def rolling_equal_risk_contribution_lasso_covar (minimize : MinimizeCall → Option Vec)
    (pd_covars : List (Nat × NanMat)) (constraints0 : Constraints)
    (risk_budget : Option (List (Option ℚ))) (squeeze_factor : Option ℚ) :
    Except PyError (List (Nat × Vec)) :=
  rolling_erc_go minimize constraints0 risk_budget squeeze_factor pd_covars none

/-- Modelled from the spec: the covariance matrix the per-date solve works on in EWMA
mode for a NaN-free per-date estimate `est`: `estimate_rolling_ewma_covar` is called
without any squeeze argument (risk_parity.py lines 33-37), so the only squeeze is the
wrapper's own step (lines 111-112). -/
def ewma_mode_solve_covar (est : QMat) (squeeze_factor : Option ℚ) : QMat :=
  apply_wrapper_squeeze est squeeze_factor

/-- Modelled from the spec: the covariance matrix the per-date solve works on in
regression (lasso) mode for the same NaN-free per-date estimate `est`: the driver passes
squeeze_factor into `estimate_rolling_lasso_covar` (risk_parity.py line 79), which per
spec 4.2 applies the squeeze as post-processing to each per-date estimate, and then the
wrapper squeezes again (lines 87 and 111-112). -/
def lasso_mode_solve_covar (est : QMat) (squeeze_factor : Option ℚ) : QMat :=
  apply_wrapper_squeeze (apply_wrapper_squeeze est squeeze_factor) squeeze_factor

/-- Modelled from the spec: `long_only_constraint`
(optimalportfolios/optimization/constraints.py is not among the sources); spec 4.4:
long-only is the non-negativity inequality on the weight vector. -/
def long_only_constraint (x : Vec) : Vec := x

/-- Modelled from the spec: `total_weight_constraint`
(optimalportfolios/optimization/constraints.py is not among the sources); spec 4.4:
total weight equals one, as the equality function sum(x) - 1. -/
def total_weight_constraint (x : Vec) : ℚ := x.sum - 1

/-- Python positional-arity check: calling a function whose signature requires
`required` positional parameters with `supplied` positional arguments raises TypeError
when too few are supplied. -/
def checkArity (required supplied : Nat) : Except PyError Unit :=
  if supplied < required then .error .typeError else .ok ()

/-- Number of positional parameters without a default in the signature
`portfolio_volatility_min(x, covar, target_vol, freq_vol, af: float = 12.0)`
(risk_parity.py line 215): x, covar, target_vol, freq_vol. Same for
`portfolio_volatility_max` (line 220). -/
def portfolio_volatility_required_params : Nat := 4

/-- Number of positional arguments scipy supplies to the volatility constraint
functions registered in `solve_risk_parity_constr_vol` (risk_parity.py lines 196-197):
fun(x, *args) with args = (covar, target_vol), hence x, covar, target_vol. -/
def constr_vol_supplied_args : Nat := 3

/-- Body of `portfolio_volatility_min` (risk_parity.py lines 215-217):
sqrt(af) * sqrt(w^T S w) - (target_vol - 0.001); with target_vol = None the subtraction
`None - 0.001` raises TypeError. `freq_vol` is accepted and unused, as in the source. -/
def portfolio_volatility_min (sqrtFn : ℚ → ℚ) (x : Vec) (covar : QMat)
    (target_vol : Option ℚ) (freq_vol : Option ℚ) (af : ℚ) : Except PyError ℚ :=
  let vol_dt := sqrtFn af
  let _ := freq_vol
  match target_vol with
  | none => .error .typeError
  | some tv => .ok (vol_dt * sqrtFn (calculate_portfolio_var x covar) - (tv - 1 / 1000))

/-- Body of `portfolio_volatility_max` (risk_parity.py lines 220-222):
-(sqrt(af) * sqrt(w^T S w) - (target_vol + 0.001)). -/
def portfolio_volatility_max (sqrtFn : ℚ → ℚ) (x : Vec) (covar : QMat)
    (target_vol : Option ℚ) (freq_vol : Option ℚ) (af : ℚ) : Except PyError ℚ :=
  let vol_dt := sqrtFn af
  let _ := freq_vol
  match target_vol with
  | none => .error .typeError
  | some tv => .ok (-(vol_dt * sqrtFn (calculate_portfolio_var x covar) - (tv + 1 / 1000)))

/-- The evaluation of the registered constraint
`{'fun': portfolio_volatility_min, 'args': (covar, target_vol)}` as scipy performs it:
fun(x, covar, target_vol) supplies 3 positional arguments to a signature requiring 4
(freq_vol is missing), so Python raises TypeError before the body runs; the body call in
the dead branch stands for the binding that never happens. -/
def portfolio_volatility_min_call (sqrtFn : ℚ → ℚ) (x : Vec) (covar : QMat)
    (target_vol : Option ℚ) : Except PyError ℚ :=
  match checkArity portfolio_volatility_required_params constr_vol_supplied_args with
  | .error e => .error e
  | .ok _ => portfolio_volatility_min sqrtFn x covar target_vol none 12

/-- The evaluation of the registered constraint
`{'fun': portfolio_volatility_max, 'args': (covar, target_vol)}`, same calling defect. -/
def portfolio_volatility_max_call (sqrtFn : ℚ → ℚ) (x : Vec) (covar : QMat)
    (target_vol : Option ℚ) : Except PyError ℚ :=
  match checkArity portfolio_volatility_required_params constr_vol_supplied_args with
  | .error e => .error e
  | .ok _ => portfolio_volatility_max sqrtFn x covar target_vol none 12

/-- `solve_risk_parity_constr_vol` (risk_parity.py lines 185-208). scipy's SLSQP
evaluates every registered constraint function (modelled as evaluating each one at the
initial point x0 before the oracle produces a solution); the long-only and total-weight
constraints evaluate fine, but both volatility constraints raise TypeError, which
propagates out of the minimize call. -/
def solve_risk_parity_constr_vol (sqrtFn : ℚ → ℚ) (minimize : MinimizeCall → Option Vec)
    (covar : QMat) (target_vol : Option ℚ) : Except PyError Vec :=
  let n := covar.length
  let budget := List.replicate n (1 / (n : ℚ))
  let x0 := budget
  let _ := long_only_constraint x0
  let _ := total_weight_constraint x0
  match portfolio_volatility_min_call sqrtFn x0 covar target_vol with
  | .error e => .error e
  | .ok _ =>
    match portfolio_volatility_max_call sqrtFn x0 covar target_vol with
    | .error e => .error e
    | .ok _ =>
      match minimize (optCall covar ⟨true, none, none, none⟩ (some budget)) with
      | some x => .ok x
      | none => .ok x0

/-- A scipy oracle that reports success at the initial point: minimize returns x0. -/
def echoX0Oracle : MinimizeCall → Option Vec := fun c => some c.x0

/-- A scipy oracle whose result array is None: the non-convergence situation the
source's fallback branch tests for. -/
def noneOracle : MinimizeCall → Option Vec := fun _ => none

/-- A default Constraints bundle: long only, no bounds, no warm start. -/
def constraintsDefault : Constraints := ⟨true, none, none, none⟩

/-! ## Helper lemmas -/

theorem getD_map_range {α : Type} (n : Nat) (f : Nat → α) (i : Nat) (d : α) :
    ((List.range n).map f).getD i d = if i < n then f i else d := by
  rcases Nat.lt_or_ge i n with h | h
  · rw [List.getD_eq_getElem?_getD, List.getElem?_map, List.getElem?_range h]
    simp [h]
  · rw [List.getD_eq_getElem?_getD, List.getElem?_map,
      List.getElem?_eq_none (by simpa using h)]
    simp [Nat.not_lt.mpr h]

theorem squeeze_matEntry (m : QMat) (q : ℚ) (i j : Nat) :
    matEntry (squeeze_covariance_matrix m q) i j =
      if i = j then matEntry m i j else (1 - q) * matEntry m i j := by
  simp only [matEntry, squeeze_covariance_matrix]
  rw [getD_map_range]
  by_cases hi : i < m.length
  · simp only [if_pos hi]
    rw [getD_map_range]
    by_cases hj : j < (m.getD i []).length
    · simp only [if_pos hj, matEntry]
    · have hz : (m.getD i []).getD j 0 = 0 := by
        rw [List.getD_eq_getElem?_getD, List.getElem?_eq_none (Nat.not_lt.mp hj)]
        rfl
      simp only [if_neg hj, matEntry, hz, mul_zero, ite_self]
  · have hrow : m[i]?.getD [] = [] := by
      rw [List.getElem?_eq_none (Nat.not_lt.mp hi)]
      rfl
    simp [if_neg hi, hrow]

theorem reindexFill_length (n : Nat) (idxs : List Nat) (w : Vec) :
    (reindexFill n idxs w).length = n := by
  simp [reindexFill]

theorem findIdx?_eq_none_of_not_mem (idxs : List Nat) (k : Nat) (h : k ∉ idxs) :
    idxs.findIdx? (fun i => i = k) = none := by
  rw [List.findIdx?_eq_none_iff]
  intro x hx
  exact decide_eq_false (fun hxk => h (hxk ▸ hx))

theorem reindexFill_getElem?_of_not_mem (n : Nat) (idxs : List Nat) (w : Vec) (k : Nat)
    (hk : k < n) (h : k ∉ idxs) : (reindexFill n idxs w)[k]? = some 0 := by
  unfold reindexFill
  rw [List.getElem?_map, List.getElem?_range hk]
  simp [findIdx?_eq_none_of_not_mem idxs k h]

theorem zipWith_apply_zipWith_same {α β γ δ : Type} (f : α → γ → δ) (g : α → β → γ) :
    ∀ (l : List α) (l2 : List β),
      List.zipWith f l (List.zipWith g l l2) = List.zipWith (fun a b => f a (g a b)) l l2 := by
  intro l
  induction l with
  | nil => intro l2; rfl
  | cons a rest ih =>
    intro l2
    cases l2 with
    | nil => rfl
    | cons b rest2 => simp [List.zipWith_cons_cons, ih]

theorem zipWith_congr_fn {α β γ : Type} (f g : α → β → γ) (h : ∀ a b, f a b = g a b) :
    ∀ (l : List α) (l2 : List β), List.zipWith f l l2 = List.zipWith g l l2 := by
  intro l
  induction l with
  | nil => intro l2; rfl
  | cons a rest ih =>
    intro l2
    cases l2 with
    | nil => rfl
    | cons b rest2 => simp [List.zipWith_cons_cons, h, ih]

/-! ## Claim theorems -/

/-- C1: when the nonlinear solve fails to converge (the minimize oracle yields no result
array, the situation opt_equal_risk_contribution tests with `if optimal_weights is None`),
opt_equal_risk_contribution returns the warm-start weights constraints.weights_0 when
present and otherwise the all-zero vector of length n = covar.shape[0]; being a total
function into Vec, it raises no exception on this path, matching the source which only
prints. -/
theorem opt_erc_nonconvergence_fallback (minimize : MinimizeCall → Option Vec)
    (covar : QMat) (constraints : Constraints) (risk_budget : Option Vec)
    (h : minimize (optCall covar constraints risk_budget) = none) :
    opt_equal_risk_contribution minimize covar constraints risk_budget =
      (match constraints.weights_0 with
       | some w => w
       | none => List.replicate covar.length 0) := by
  unfold opt_equal_risk_contribution
  rw [h]

theorem opt_erc_nonconvergence_fallback_witness :
    opt_equal_risk_contribution noneOracle [[1]] ⟨true, none, none, some [5]⟩ none = [5] :=
  opt_erc_nonconvergence_fallback noneOracle [[1]] ⟨true, none, none, some [5]⟩ none rfl

/-- C2 (code bug): calling wrapper_equal_risk_contribution with risk_budget = None does
not proceed to an equal-split solve; the call argument `risk_budget.to_numpy()`
(risk_parity.py line 126) is evaluated with risk_budget still None and raises
AttributeError, even on a perfectly valid 1-asset covariance matrix. -/
theorem wrapper_none_budget_attribute_error :
    wrapper_equal_risk_contribution echoX0Oracle [[some 1]] constraintsDefault none none
      none = .error .attributeError := by
  norm_num [wrapper_equal_risk_contribution,
    show validIndices [[some 1]] = [0] from by decide]

/-- C7: opt_equal_risk_contribution always starts the solve from the equal-weight vector
(n entries, each 1/n, summing to 1), with method SLSQP, the constraint set materialized
by constraints.set_scipy_constraints(covar), function tolerance 1e-18 and iteration
budget 200. -/
theorem opt_erc_call_configuration (covar : QMat) (constraints : Constraints)
    (risk_budget : Option Vec) (h : 0 < covar.length) :
    (optCall covar constraints risk_budget).x0.length = covar.length ∧
    (∀ w ∈ (optCall covar constraints risk_budget).x0, w = 1 / (covar.length : ℚ)) ∧
    (optCall covar constraints risk_budget).x0.sum = 1 ∧
    (optCall covar constraints risk_budget).method = "SLSQP" ∧
    (optCall covar constraints risk_budget).scipyCons =
      constraints.set_scipy_constraints covar ∧
    (optCall covar constraints risk_budget).ftol = 1 / 1000000000000000000 ∧
    (optCall covar constraints risk_budget).maxiter = 200 := by
  refine ⟨by simp [optCall], ?_, ?_, rfl, rfl, rfl, rfl⟩
  · intro w hw
    exact List.eq_of_mem_replicate hw
  · have hne : (covar.length : ℚ) ≠ 0 := by
      exact_mod_cast Nat.pos_iff_ne_zero.mp h
    simp only [optCall, List.sum_replicate, nsmul_eq_mul, one_div]
    exact mul_inv_cancel₀ hne

theorem opt_erc_call_configuration_witness :
    (optCall [[1]] constraintsDefault none).x0.length = 1 ∧
    (∀ w ∈ (optCall [[1]] constraintsDefault none).x0, w = 1 / ((1 : Nat) : ℚ)) ∧
    (optCall [[1]] constraintsDefault none).x0.sum = 1 ∧
    (optCall [[1]] constraintsDefault none).method = "SLSQP" ∧
    (optCall [[1]] constraintsDefault none).scipyCons =
      constraintsDefault.set_scipy_constraints [[1]] ∧
    (optCall [[1]] constraintsDefault none).ftol = 1 / 1000000000000000000 ∧
    (optCall [[1]] constraintsDefault none).maxiter = 200 :=
  opt_erc_call_configuration [[1]] constraintsDefault none (by decide)

/-- C10: for every covariance matrix and every target_vol argument (the None default
included), solve_risk_parity_constr_vol raises TypeError instead of returning a weight
vector: its registered volatility constraints are invoked as fun(x, covar, target_vol),
3 positional arguments against a signature requiring 4 (freq_vol is never supplied). -/
theorem solve_risk_parity_constr_vol_type_error (sqrtFn : ℚ → ℚ)
    (minimize : MinimizeCall → Option Vec) (covar : QMat) (target_vol : Option ℚ) :
    solve_risk_parity_constr_vol sqrtFn minimize covar target_vol =
      .error .typeError := by
  unfold solve_risk_parity_constr_vol portfolio_volatility_min_call checkArity
  norm_num [portfolio_volatility_required_params, constr_vol_supplied_args]

/-- C3 counterexample: on a date whose covariance matrix is all-NaN (zero valid assets
remain after NaN filtering), the per-date solve does not return an all-zero weight
vector; it raises ZeroDivisionError (risk_parity.py line 114 divides by the valid-asset
count), refuting the claim at this concrete input. -/
theorem wrapper_all_nan_zero_division :
    wrapper_equal_risk_contribution echoX0Oracle [[none]] constraintsDefault none none
      none = .error .zeroDivisionError := by
  norm_num [wrapper_equal_risk_contribution, show validIndices [[none]] = [] from by decide]

/-- C3 amended: whenever zero valid assets remain after NaN filtering of a date's
covariance matrix, the per-date solve raises ZeroDivisionError (from computing
total_to_good_ratio = len(all)/len(valid)) instead of returning an all-zero vector,
for every constraint bundle, warm start, risk budget and squeeze factor. -/
theorem wrapper_empty_universe_zero_division (minimize : MinimizeCall → Option Vec)
    (pd_covar : NanMat) (constraints0 : Constraints) (weights_0 : Option Vec)
    (risk_budget : Option (List (Option ℚ))) (squeeze_factor : Option ℚ)
    (h : validIndices pd_covar = []) :
    wrapper_equal_risk_contribution minimize pd_covar constraints0 weights_0 risk_budget
      squeeze_factor = .error .zeroDivisionError := by
  simp [wrapper_equal_risk_contribution, h]

theorem wrapper_empty_universe_zero_division_witness :
    wrapper_equal_risk_contribution noneOracle [[none]] constraintsDefault none
      (some [some 1]) none = .error .zeroDivisionError :=
  wrapper_empty_universe_zero_division noneOracle [[none]] constraintsDefault none
    (some [some 1]) none (by decide)

/-- C6: for a given (possibly partially NaN) risk budget, the minimized objective equals
the sum of squared deviations between each asset's actual risk contribution and its
target of (budget entry times total portfolio volatility sig_p), where a NaN budget
entry contributes exactly zero penalty: its target is set to the asset's own computed
risk contribution. -/
theorem risk_budget_objective_nan_no_penalty (sqrtFn : ℚ → ℚ) (x : Vec) (covar : QMat)
    (b : List (Option ℚ)) :
    risk_budget_objective sqrtFn x covar (some b) =
      (List.zipWith (fun rc bi =>
        match bi with
        | none => 0
        | some v => (rc - sqrtFn (calculate_portfolio_var x covar) * v) ^ 2)
        (calculate_risk_contribution sqrtFn x covar) b).sum := by
  simp only [risk_budget_objective]
  rw [zipWith_apply_zipWith_same]
  congr 1
  apply zipWith_congr_fn
  intro a bi
  cases bi with
  | none => simp
  | some v => rfl

/-- C9 counterexample: with squeeze factor 1/2 and the same per-date covariance estimate
[[1,1],[1,1]], the regression (lasso) mode and the EWMA mode do not solve with the same
squeezed matrix: the lasso pipeline squeezes twice (off-diagonal 1/4) while the EWMA
pipeline squeezes once (off-diagonal 1/2). -/
theorem squeeze_modes_differ :
    lasso_mode_solve_covar [[1, 1], [1, 1]] (some (1 / 2)) ≠
      ewma_mode_solve_covar [[1, 1], [1, 1]] (some (1 / 2)) := by
  norm_num [lasso_mode_solve_covar, ewma_mode_solve_covar, apply_wrapper_squeeze,
    squeeze_covariance_matrix, matEntry, List.range_succ]

/-- C9 amended: the wrapper applies one identical blending step in both modes, but the
lasso driver additionally passes the squeeze factor into its covariance estimator, so
for the same per-date covariance estimate the EWMA mode solves with the once-squeezed
matrix and the lasso mode with the twice-squeezed matrix: every off-diagonal entry of
the lasso-mode solve matrix is a further (1 - q) multiple of the EWMA-mode one, while
diagonal entries agree. -/
theorem lasso_mode_double_squeeze (est : QMat) (q : ℚ) (hq : 0 < q) :
    ewma_mode_solve_covar est (some q) = squeeze_covariance_matrix est q ∧
    lasso_mode_solve_covar est (some q) =
      squeeze_covariance_matrix (ewma_mode_solve_covar est (some q)) q ∧
    (∀ i j, i ≠ j →
      matEntry (lasso_mode_solve_covar est (some q)) i j =
        (1 - q) * matEntry (ewma_mode_solve_covar est (some q)) i j) ∧
    (∀ i, matEntry (lasso_mode_solve_covar est (some q)) i i =
        matEntry (ewma_mode_solve_covar est (some q)) i i) := by
  have he : ewma_mode_solve_covar est (some q) = squeeze_covariance_matrix est q := by
    simp [ewma_mode_solve_covar, apply_wrapper_squeeze, if_pos hq]
  have hl : lasso_mode_solve_covar est (some q) =
      squeeze_covariance_matrix (ewma_mode_solve_covar est (some q)) q := by
    simp [lasso_mode_solve_covar, ewma_mode_solve_covar, apply_wrapper_squeeze, if_pos hq]
  refine ⟨he, hl, ?_, ?_⟩
  · intro i j hij
    rw [hl, squeeze_matEntry, if_neg hij]
  · intro i
    rw [hl, squeeze_matEntry, if_pos rfl]

theorem lasso_mode_double_squeeze_witness :
    ewma_mode_solve_covar [[1, 1], [1, 1]] (some (1 / 2)) =
      squeeze_covariance_matrix [[1, 1], [1, 1]] (1 / 2) ∧
    lasso_mode_solve_covar [[1, 1], [1, 1]] (some (1 / 2)) =
      squeeze_covariance_matrix (ewma_mode_solve_covar [[1, 1], [1, 1]] (some (1 / 2)))
        (1 / 2) ∧
    (∀ i j, i ≠ j →
      matEntry (lasso_mode_solve_covar [[1, 1], [1, 1]] (some (1 / 2))) i j =
        (1 - 1 / 2) * matEntry (ewma_mode_solve_covar [[1, 1], [1, 1]] (some (1 / 2))) i j) ∧
    (∀ i, matEntry (lasso_mode_solve_covar [[1, 1], [1, 1]] (some (1 / 2))) i i =
        matEntry (ewma_mode_solve_covar [[1, 1], [1, 1]] (some (1 / 2))) i i) :=
  lasso_mode_double_squeeze [[1, 1], [1, 1]] (1 / 2) (by norm_num)

theorem map_getD_range_eq (b : List (Option ℚ)) :
    (List.range b.length).map (fun i => (b.getD i none).getD 0) =
      b.map (fun o => o.getD 0) := by
  induction b with
  | nil => rfl
  | cons o rest ih =>
    simp only [List.length_cons, List.range_succ_eq_map, List.map_cons, List.map_map,
      List.getD_cons_zero]
    congr 1

theorem getD_getD_nonneg (b : List (Option ℚ)) (hpos : ∀ o ∈ b, 0 ≤ o.getD 0) (i : Nat) :
    0 ≤ (b.getD i none).getD 0 := by
  rw [List.getD_eq_getElem?_getD]
  cases hbi : b[i]? with
  | none => simp
  | some o =>
    simp only [Option.getD_some]
    exact hpos o (List.getElem?_mem hbi)

/-- C8 counterexample: the risk budget [1.0, 0.0] sums to 1 over both assets; with asset
2 made invalid (NaN row), the budget actually passed to the per-date solve is [2.0]
(restricted to the valid asset, NaN-filled, rescaled by total_to_good_ratio = 2/1),
which sums to 2 > 1 over the valid assets, refuting the claim. -/
theorem passed_risk_budget_exceeds_one :
    (([some (1 : ℚ), some 0].map (fun o => o.getD 0)).sum ≤ 1) ∧
    ¬ ((wrapper_passed_risk_budget [[some 1, some 0], [none, none]]
        [some 1, some 0]).sum ≤ 1) := by
  constructor
  · norm_num
  · norm_num [wrapper_passed_risk_budget,
      show validIndices [[some 1, some 0], [none, none]] = [0] from by decide]

/-- C8 amended: for every risk budget with nonnegative entries (NaN read as 0) summing
to at most 1 over all assets, the risk budget actually passed to the per-date solve
(restricted to valid tickers, zero-filled, rescaled by the total-to-valid asset-count
ratio) sums to at most that ratio over the valid assets — a bound that can exceed 1, and
is not the claimed bound 1. -/
theorem passed_risk_budget_le_total_to_good (pd_covar : NanMat) (b : List (Option ℚ))
    (hlen : b.length = pd_covar.length)
    (hpos : ∀ o ∈ b, 0 ≤ o.getD 0)
    (hsum : (b.map (fun o => o.getD 0)).sum ≤ 1) :
    (wrapper_passed_risk_budget pd_covar b).sum ≤
      (pd_covar.length : ℚ) / ((validIndices pd_covar).length : ℚ) := by
  have hr : (0 : ℚ) ≤ (pd_covar.length : ℚ) / ((validIndices pd_covar).length : ℚ) :=
    div_nonneg (Nat.cast_nonneg _) (Nat.cast_nonneg _)
  unfold wrapper_passed_risk_budget
  rw [List.sum_map_mul_right]
  have hsub : List.Sublist ((validIndices pd_covar).map (fun i => (b.getD i none).getD 0))
      ((List.range pd_covar.length).map (fun i => (b.getD i none).getD 0)) :=
    List.Sublist.map _ (List.filter_sublist _)
  have h1 : ((validIndices pd_covar).map (fun i => (b.getD i none).getD 0)).sum ≤
      ((List.range pd_covar.length).map (fun i => (b.getD i none).getD 0)).sum := by
    refine List.Sublist.sum_le_sum hsub (fun a ha => ?_)
    obtain ⟨i, _, rfl⟩ := List.mem_map.mp ha
    exact getD_getD_nonneg b hpos i
  have h2 : ((List.range pd_covar.length).map (fun i => (b.getD i none).getD 0)).sum =
      (b.map (fun o => o.getD 0)).sum := by
    rw [← hlen, map_getD_range_eq]
  calc ((validIndices pd_covar).map (fun i => (b.getD i none).getD 0)).sum *
        ((pd_covar.length : ℚ) / ((validIndices pd_covar).length : ℚ))
      ≤ 1 * ((pd_covar.length : ℚ) / ((validIndices pd_covar).length : ℚ)) :=
        mul_le_mul_of_nonneg_right (h1.trans (h2 ▸ hsum)) hr
    _ = (pd_covar.length : ℚ) / ((validIndices pd_covar).length : ℚ) := one_mul _

theorem passed_risk_budget_le_total_to_good_witness :
    (wrapper_passed_risk_budget [[some 1, some 0], [none, none]]
      [some (1 : ℚ), some 0]).sum ≤
      (([[some (1 : ℚ), some 0], [none, none]] : NanMat).length : ℚ) /
        ((validIndices [[some 1, some 0], [none, none]]).length : ℚ) :=
  passed_risk_budget_le_total_to_good [[some 1, some 0], [none, none]]
    [some (1 : ℚ), some 0] (by decide) (by decide) (by norm_num)

theorem wrapper_ok_eq (minimize : MinimizeCall → Option Vec) (pd_covar : NanMat)
    (constraints0 : Constraints) (weights_0 : Option Vec)
    (risk_budget : Option (List (Option ℚ))) (squeeze_factor : Option ℚ) (w : Vec)
    (h : wrapper_equal_risk_contribution minimize pd_covar constraints0 weights_0
      risk_budget squeeze_factor = .ok w) :
    ∃ b, risk_budget = some b ∧
      w = reindexFill pd_covar.length (validIndices pd_covar)
        (opt_equal_risk_contribution minimize
          (apply_wrapper_squeeze (cleanCovar pd_covar) squeeze_factor)
          (constraints0.update_with_valid_tickers (validIndices pd_covar)
            ((pd_covar.length : ℚ) / ((validIndices pd_covar).length : ℚ)) weights_0)
          (some (wrapper_passed_risk_budget pd_covar risk_budget.iget))) := by
  by_cases hv : (validIndices pd_covar).length = 0
  · simp [wrapper_equal_risk_contribution, hv] at h
  · cases risk_budget with
    | none => simp [wrapper_equal_risk_contribution, hv] at h
    | some b =>
      refine ⟨b, rfl, ?_⟩
      simp only [wrapper_equal_risk_contribution, hv, if_neg, ite_false,
        Except.ok.injEq, Option.iget_some] at h ⊢
      exact h.symm

theorem rolling_go_lengths (minimize : MinimizeCall → Option Vec)
    (constraints0 : Constraints) (rb : Option (List (Option ℚ))) (sq : Option ℚ)
    (nA : Nat) :
    ∀ (covars : List (Nat × NanMat)) (w0 : Option Vec) (out : List (Nat × Vec)),
      (∀ dc ∈ covars, (Prod.snd dc).length = nA) →
      rolling_erc_go minimize constraints0 rb sq covars w0 = .ok out →
      ∀ dw ∈ out, (Prod.snd dw).length = nA := by
  intro covars
  induction covars with
  | nil =>
    intro w0 out _ h
    simp only [rolling_erc_go, Except.ok.injEq] at h
    subst h
    intro dw hdw
    simp at hdw
  | cons hd rest ih =>
    intro w0 out hlen h
    obtain ⟨d, c⟩ := hd
    simp only [rolling_erc_go] at h
    cases h1 : wrapper_equal_risk_contribution minimize c constraints0 w0 rb sq with
    | error e => rw [h1] at h; simp at h
    | ok w =>
      rw [h1] at h
      dsimp only at h
      cases h2 : rolling_erc_go minimize constraints0 rb sq rest (some w) with
      | error e => rw [h2] at h; simp at h
      | ok ws =>
        rw [h2] at h
        simp only [Except.ok.injEq] at h
        subst h
        intro dw hdw
        rcases List.mem_cons.mp hdw with rfl | hmem
        · obtain ⟨b, _, hw⟩ := wrapper_ok_eq minimize c constraints0 w0 rb sq w h1
          have hc : c.length = nA := hlen (d, c) (List.mem_cons_self _ _)
          simpa [hw, reindexFill_length] using hc
        · exact ih (some w) ws (fun dc hdc => hlen dc (List.mem_cons_of_mem _ hdc)) h2 dw hmem

/-- C5: the weight vector returned by wrapper_equal_risk_contribution is indexed by the
full original asset index of the input covariance (length n, position k standing for the
k-th original ticker), with weight exactly 0 at every position removed by the
NaN/universe filter; and every weight row produced by the rolling drivers has the full
asset-column count (the per-date covariances being indexed by the price columns, the
reindex of risk_parity.py lines 48-49 and 91-92 is the identity on these rows). -/
theorem wrapper_full_index_zero_fill :
    (∀ (minimize : MinimizeCall → Option Vec) (pd_covar : NanMat)
      (constraints0 : Constraints) (weights_0 : Option Vec)
      (risk_budget : Option (List (Option ℚ))) (squeeze_factor : Option ℚ) (w : Vec),
      wrapper_equal_risk_contribution minimize pd_covar constraints0 weights_0
        risk_budget squeeze_factor = .ok w →
      w.length = pd_covar.length ∧
      ∀ k, k < pd_covar.length → k ∉ validIndices pd_covar → w[k]? = some 0) ∧
    (∀ (minimize : MinimizeCall → Option Vec) (nA : Nat) (covars : List (Nat × NanMat))
      (constraints0 : Constraints) (rb : Option (List (Option ℚ))) (sq : Option ℚ)
      (out : List (Nat × Vec)),
      (∀ dc ∈ covars, (Prod.snd dc).length = nA) →
      rolling_equal_risk_contribution minimize covars constraints0 rb sq = .ok out →
      ∀ dw ∈ out, (Prod.snd dw).length = nA) := by
  constructor
  · intro minimize pd_covar constraints0 weights_0 risk_budget squeeze_factor w h
    obtain ⟨b, rfl, hw⟩ := wrapper_ok_eq minimize pd_covar constraints0 weights_0
      risk_budget squeeze_factor w h
    subst hw
    refine ⟨reindexFill_length _ _ _, fun k hk hkv => ?_⟩
    exact reindexFill_getElem?_of_not_mem _ _ _ k hk hkv
  · intro minimize nA covars constraints0 rb sq out hlen h
    exact rolling_go_lengths minimize constraints0 rb sq nA covars none out hlen h

theorem wrapper_full_index_zero_fill_witness :
    wrapper_equal_risk_contribution echoX0Oracle [[some 1, some 0], [none, none]]
      constraintsDefault none (some [some 1, some 0]) none = .ok [1, 0] ∧
    ([1, 0] : Vec)[1]? = some 0 := by
  have hok : wrapper_equal_risk_contribution echoX0Oracle [[some 1, some 0], [none, none]]
      constraintsDefault none (some [some 1, some 0]) none = .ok [1, 0] := by
    norm_num [wrapper_equal_risk_contribution,
      show validIndices [[some 1, some 0], [none, none]] = [0] from by decide,
      wrapper_passed_risk_budget, opt_equal_risk_contribution, echoX0Oracle, optCall,
      cleanCovar, apply_wrapper_squeeze, reindexFill, matRow,
      Constraints.update_with_valid_tickers, List.range_succ, List.findIdx?]
  refine ⟨hok, ?_⟩
  have h2 := (wrapper_full_index_zero_fill.1 echoX0Oracle
    [[some 1, some 0], [none, none]] constraintsDefault none (some [some 1, some 0])
    none [1, 0] hok).2 1 (by norm_num) (by decide)
  exact h2

theorem rolling_go_spec (minimize : MinimizeCall → Option Vec)
    (constraints0 : Constraints) (rb : Option (List (Option ℚ))) (sq : Option ℚ) :
    ∀ (covars : List (Nat × NanMat)) (w0 : Option Vec) (out : List (Nat × Vec)),
      rolling_erc_go minimize constraints0 rb sq covars w0 = .ok out →
      out.map Prod.fst = covars.map Prod.fst ∧
      ∀ k, k < covars.length →
        wrapper_equal_risk_contribution minimize (covars.getD k (0, [])).2 constraints0
          (if k = 0 then w0 else some ((out.getD (k - 1) (0, [])).2)) rb sq
          = .ok ((out.getD k (0, [])).2) := by
  intro covars
  induction covars with
  | nil =>
    intro w0 out h
    simp only [rolling_erc_go, Except.ok.injEq] at h
    subst h
    exact ⟨rfl, fun k hk => absurd hk (by simp)⟩
  | cons hd rest ih =>
    intro w0 out h
    obtain ⟨d, c⟩ := hd
    simp only [rolling_erc_go] at h
    cases h1 : wrapper_equal_risk_contribution minimize c constraints0 w0 rb sq with
    | error e => rw [h1] at h; simp at h
    | ok w =>
      rw [h1] at h
      dsimp only at h
      cases h2 : rolling_erc_go minimize constraints0 rb sq rest (some w) with
      | error e => rw [h2] at h; simp at h
      | ok ws =>
        rw [h2] at h
        simp only [Except.ok.injEq] at h
        subst h
        obtain ⟨hmap, hthread⟩ := ih (some w) ws h2
        refine ⟨by simp [hmap], ?_⟩
        intro k hk
        cases k with
        | zero => simpa using h1
        | succ m =>
          have hm : m < rest.length := by simpa using hk
          have hrec := hthread m hm
          cases m with
          | zero => simpa using hrec
          | succ m2 =>
            simpa [List.getD_cons_succ] using hrec

/-- C4: both rolling drivers run the same loop over the per-date covariances (taken
date-ascending, as produced by the estimators); the accepted weights of date k are the
warm start weights_0 of date k+1, the first date receives no warm start (weights_0 =
None), the output dates are exactly the input dates in order (hence ascending), and —
the loop being a fold whose only carried value is that warm start — this is the only
cross-date state. -/
theorem rolling_warm_start_threading (minimize : MinimizeCall → Option Vec)
    (constraints0 : Constraints) (rb : Option (List (Option ℚ))) (sq : Option ℚ)
    (pd_covars : List (Nat × NanMat)) (out : List (Nat × Vec))
    (hasc : List.Chain' (fun a b => a < b) (pd_covars.map Prod.fst))
    (h : rolling_equal_risk_contribution minimize pd_covars constraints0 rb sq = .ok out) :
    rolling_equal_risk_contribution_lasso_covar minimize pd_covars constraints0 rb sq =
      rolling_equal_risk_contribution minimize pd_covars constraints0 rb sq ∧
    out.map Prod.fst = pd_covars.map Prod.fst ∧
    List.Chain' (fun a b => a < b) (out.map Prod.fst) ∧
    ∀ k, k < pd_covars.length →
      wrapper_equal_risk_contribution minimize (pd_covars.getD k (0, [])).2 constraints0
        (if k = 0 then none else some ((out.getD (k - 1) (0, [])).2)) rb sq
        = .ok ((out.getD k (0, [])).2) := by
  obtain ⟨hmap, hthread⟩ :=
    rolling_go_spec minimize constraints0 rb sq pd_covars none out h
  exact ⟨rfl, hmap, hmap ▸ hasc, hthread⟩

theorem rolling_warm_start_threading_witness :
    wrapper_equal_risk_contribution echoX0Oracle [[some 1]] constraintsDefault
      (some [1]) (some [some 1]) none = .ok [1] := by
  have hok : rolling_equal_risk_contribution echoX0Oracle
      [(1, [[some 1]]), (2, [[some 1]])] constraintsDefault (some [some 1]) none =
      .ok [(1, [1]), (2, [1])] := by
    norm_num [rolling_equal_risk_contribution, rolling_erc_go,
      wrapper_equal_risk_contribution, show validIndices [[some 1]] = [0] from by decide,
      wrapper_passed_risk_budget, opt_equal_risk_contribution, echoX0Oracle, optCall,
      cleanCovar, apply_wrapper_squeeze, reindexFill, matRow,
      Constraints.update_with_valid_tickers]
    decide
  have h := rolling_warm_start_threading echoX0Oracle constraintsDefault (some [some 1])
    none [(1, [[some 1]]), (2, [[some 1]])] [(1, [1]), (2, [1])]
    (by norm_num [List.chain'_cons]) hok
  simpa using h.2.2.2 1 (by norm_num)
